import Mathlib

set_option maxHeartbeats 1000000

/- Allow kernel evaluation of concrete rational arithmetic in this file. -/
attribute [local semireducible] Rat.ofScientific Rat.mul Rat.inv Rat.add Rat.sub

/-!
Shallow embedding of the CVE threat aggregator (src/main.py) and proofs about
the claims of its specification.

Modelling conventions, used throughout:

- JSON values returned by the network are an inductive type `Json` (a mutual
  inductive so that decidable equality can be derived).  The empty object
  `Json.obj JsonFields.nil` models the Python empty dict returned by
  `_fetch_remote_data` on any failure.
- Machine floats are modelled as rationals.  Every numeric comparison the
  program performs is on values where float and rational comparison agree
  (small decimal literals), so this is exact for everything proved below.
- The network is an explicit oracle: a function from request to response.  A
  deterministic oracle models one fixed world state during an engine run.
- Async concurrency is modelled sequentially: the program only uses
  `asyncio.gather` on independent fetches whose results are consumed by
  position, so the sequential model computes the same values; `gather` without
  `return_exceptions` propagates a raised exception to the caller, modelled by
  the `Except` monad.
- Python dict assignment `d[k] = v` is `dictInsert` (replace in place if the
  key exists, else append), and `d.get` / `d[k]` are association-list lookups.
- `datetime.now()` is an explicit rational-valued time parameter, in minutes,
  passed to the `MemCache` operations.
- Calls that Python dates/strings make to external libraries (feedparser,
  strptime) are modelled at their boundary: a raw feed entry carries either
  the ISO date that `strptime(...).date().isoformat()` would produce or a
  marker that `strptime` raises `ValueError` (a malformed publication date).
-/

/- ===== Generic association-list (Python dict) operations ===== -/

/-- First-match association-list lookup, as Python dict lookup (keys unique). -/
def alGet {κ α : Type} [DecidableEq κ] : List (κ × α) → κ → Option α
  | [], _ => none
  | p :: rest, k => if p.1 = k then some p.2 else alGet rest k

/-- Python dict assignment d[k] = v: replace the value in place if the key is
present, else append the new binding. -/
def dictInsert {κ α : Type} [DecidableEq κ] (d : List (κ × α)) (k : κ) (v : α) :
    List (κ × α) :=
  if (alGet d k).isSome then
    d.map (fun p => if p.1 = k then (k, v) else p)
  else d ++ [(k, v)]

/- ===== JSON values ===== -/

mutual
/-- JSON values as decoded by aiohttp response.json(). -/
inductive Json where
  | null
  | bool (b : Bool)
  | num (q : ℚ)
  | str (s : String)
  | arr (elems : JsonList)
  | obj (fields : JsonFields)
deriving DecidableEq

/-- A JSON array body (spelled out so decidable equality derives). -/
inductive JsonList where
  | nil
  | cons (hd : Json) (tl : JsonList)
deriving DecidableEq

/-- A JSON object body: ordered key/value bindings, as a Python dict. -/
inductive JsonFields where
  | nil
  | cons (key : String) (val : Json) (tl : JsonFields)
deriving DecidableEq
end

def JsonList.toList : JsonList → List Json
  | .nil => []
  | .cons x tl => x :: tl.toList

def JsonList.ofList : List Json → JsonList
  | [] => .nil
  | x :: tl => .cons x (JsonList.ofList tl)

def JsonFields.find : JsonFields → String → Option Json
  | .nil, _ => none
  | .cons key val tl, k => if key = k then some val else tl.find k

def JsonFields.ofList : List (String × Json) → JsonFields
  | [] => .nil
  | (k, v) :: tl => .cons k v (JsonFields.ofList tl)

/-- Convenience constructor for JSON array literals. -/
def Json.jarr (xs : List Json) : Json := .arr (JsonList.ofList xs)

/-- Convenience constructor for JSON object literals. -/
def Json.jobj (fs : List (String × Json)) : Json := .obj (JsonFields.ofList fs)

/-- The empty JSON object, Python's empty dict. -/
def Json.empty : Json := .obj .nil

/-- Python d.get(k) on a JSON object (None when absent).  Python raises
AttributeError when the receiver is not a dict; no code path proved about
below reaches that case, and it is modelled as a missing key. -/
def Json.get : Json → String → Option Json
  | .obj fields, k => fields.find k
  | _, _ => none

/-- Python d.get(k, default). -/
def Json.getD (j : Json) (k : String) (d : Json) : Json := (j.get k).getD d

/-- Python truthiness of a JSON value (empty dict/list/string and 0 are falsy). -/
def Json.truthy : Json → Bool
  | .null => false
  | .bool b => b
  | .num q => decide (q ≠ 0)
  | .str s => decide (s ≠ "")
  | .arr .nil => false
  | .arr (.cons _ _) => true
  | .obj .nil => false
  | .obj (.cons _ _ _) => true

/-- Python list[0] with a default: the source always indexes the result of
.get(key, [default]) so the list is nonempty in every executed path; an empty
or non-list value would raise in Python (IndexError / TypeError) and is
modelled as the default, a case no theorem below exercises. -/
def Json.first (j : Json) (d : Json) : Json :=
  match j with
  | .arr (.cons x _) => x
  | _ => d

/-- Elements of a JSON array, empty for non-arrays (Python would raise
TypeError when iterating a non-sequence; not exercised below). -/
def Json.arrElems : Json → List Json
  | .arr xs => xs.toList
  | _ => []

/-- The string payload of a JSON string, with a default otherwise. -/
def Json.asStr (j : Json) (d : String) : String :=
  match j with
  | .str s => s
  | _ => d

/- ===== Python float() on the values reaching the classifier ===== -/

/-- Digit run to a natural number. -/
def digitsVal (cs : List Char) : ℕ :=
  cs.foldl (fun n c => 10 * n + (c.toNat - 48)) 0

/-- The fragment of Python float(string) parsing the program can meet:
optional sign, digits, optional '.' and fraction digits.  Anything else
(e.g. "abc", "n/a") raises ValueError in Python, here `none`. -/
def parseDecimal (s : String) : Option ℚ :=
  let cs := s.toList
  let signed : ℚ × List Char :=
    match cs with
    | '-' :: rest => (-1, rest)
    | '+' :: rest => (1, rest)
    | _ => (1, cs)
  let intPart := signed.2.takeWhile Char.isDigit
  let rest := signed.2.dropWhile Char.isDigit
  match rest with
  | [] => if intPart.isEmpty then none else some (signed.1 * digitsVal intPart)
  | '.' :: frac =>
    if frac.all Char.isDigit ∧ (¬ intPart.isEmpty ∨ ¬ frac.isEmpty) then
      some (signed.1 *
        ((digitsVal intPart : ℚ) + (digitsVal frac : ℚ) / (10 : ℚ) ^ frac.length))
    else none
  | _ => none

/-- Python float(x) for the argument shapes reaching _compute_threat_vector:
None raises TypeError (`none`), numbers and booleans convert, strings parse
or raise ValueError, containers raise TypeError. -/
def pyFloat : Option Json → Option ℚ
  | none => none
  | some (.num q) => some q
  | some (.bool b) => some (if b then 1 else 0)
  | some (.str s) => parseDecimal s
  | some _ => none

/- ===== _compute_threat_vector (the Threat Classifier) ===== -/

/-- src/main.py _compute_threat_vector: float() the raw score inside a
try/except returning "n/a" on conversion failure, then the if/elif chain
with its inclusive integer bounds, else "n/a". -/
def _compute_threat_vector (raw_cvss_ptr : Option Json) : String :=
  match pyFloat raw_cvss_ptr with
  | none => "n/a"
  | some q =>
    if 0 ≤ q ∧ q ≤ 3 then "Faible"
    else if 4 ≤ q ∧ q ≤ 6 then "Moyenne"
    else if 7 ≤ q ∧ q ≤ 8 then "Élevée"
    else if 9 ≤ q ∧ q ≤ 10 then "Critique"
    else "n/a"

/- ===== _fetch_remote_data (the Bounded Fetch Client) ===== -/

/-- Decidable equality of fallible outcomes. -/
instance {ε α : Type} [DecidableEq ε] [DecidableEq α] : DecidableEq (Except ε α) := fun a b =>
  match a, b with
  | .ok x, .ok y =>
    if h : x = y then isTrue (by rw [h]) else isFalse (by intro he; cases he; exact h rfl)
  | .error x, .error y =>
    if h : x = y then isTrue (by rw [h]) else isFalse (by intro he; cases he; exact h rfl)
  | .ok _, .error _ => isFalse (by intro he; cases he)
  | .error _, .ok _ => isFalse (by intro he; cases he)

/-- Outcome of one HTTP GET before the client's error handling: the request
raises (timeout, connection error, cancellation of the body read), or it
yields a status and a body whose JSON decoding succeeds or raises. -/
inductive HttpResult where
  | netError
  | success (status : ℕ) (body : Except Unit Json)
deriving DecidableEq

/-- src/main.py _fetch_remote_data: under the admission semaphore, GET the
target; return the decoded JSON when the status is 200, the empty dict for
any other status, and the empty dict when anything raises (bare except). -/
def _fetch_remote_data (resp : HttpResult) : Json :=
  match resp with
  | .netError => Json.empty
  | .success status body =>
    if status = 200 then
      match body with
      | .ok j => j
      | .error _ => Json.empty
    else Json.empty

/- ===== _process_mitre_block ===== -/

/-- The normalized record _process_mitre_block builds and the MITRE cache
stores.  Field values keep their JSON shape (baseScore is a JSON number when
present, the string "n/a" otherwise), versions is the joined string. -/
structure MitreRecord where
  cvss_score : Json
  description : Json
  cwe_desc : Json
  vendor : Json
  product : Json
  versions : String
deriving DecidableEq

/-- src/main.py _process_mitre_block: descend containers.cna, take first
elements of metrics / descriptions / problemTypes / affected with "n/a"
defaults, join the versions with ", ". -/
def _process_mitre_block (data_block : Json) : MitreRecord :=
  let _cna_ptr := (data_block.getD "containers" Json.null).getD "cna" Json.empty
  let _metrics_ptr :=
    ((_cna_ptr.getD "metrics" (Json.jarr [Json.empty])).first Json.empty).getD
      "cvssV3_1" Json.empty
  let _affected_ptr := (_cna_ptr.getD "affected" (Json.jarr [Json.empty])).first Json.empty
  let _problem_ptr :=
    (((_cna_ptr.getD "problemTypes" (Json.jarr [Json.empty])).first Json.empty).getD
      "descriptions" (Json.jarr [Json.empty])).first Json.empty
  { cvss_score := _metrics_ptr.getD "baseScore" (.str "n/a"),
    description :=
      ((_cna_ptr.getD "descriptions" (Json.jarr [Json.empty])).first Json.empty).getD
        "value" (.str "n/a"),
    cwe_desc := _problem_ptr.getD "description" (.str "n/a"),
    vendor := _affected_ptr.getD "vendor" (.str "n/a"),
    product := _affected_ptr.getD "product" (.str "n/a"),
    versions := String.intercalate ", "
      (((_affected_ptr.getD "versions" (Json.jarr [])).arrElems).map
        (fun v => (v.getD "version" (.str "")).asStr "")) }

/- ===== _fetch_mitre_metadata (Entity Enrichment, MITRE) ===== -/

abbrev MitreCache := List (String × MitreRecord)

def mitreUrl (cve_id : String) : String :=
  "https://cveawg.mitre.org/api/cve/" ++ cve_id

/-- src/main.py _fetch_mitre_metadata over an engine cache.  `fetch` is the
per-URL result of _fetch_remote_data (the chunked task submission issues
exactly one such GET per uncached id, so the third component counts the
network calls made).  A response that is truthy and has a "containers" key is
parsed and cached; every requested id is answered, an uncached one by the
empty record `none` (Python: the empty dict).  `mitreCacheStep` is the cache
write of one zipped response: parse and cache when the response is truthy and
has a "containers" key, else leave the cache alone. -/
def mitreCacheStep (fetch : String → Json) (acc : MitreCache) (c : String) :
    MitreCache :=
  let _data_block := fetch (mitreUrl c)
  if _data_block.truthy ∧ (_data_block.get "containers").isSome then
    dictInsert acc c (_process_mitre_block _data_block)
  else acc

def _fetch_mitre_metadata (fetch : String → Json) (cache : MitreCache)
    (cve_id_array : List String) :
    List (String × Option MitreRecord) × MitreCache × ℕ :=
  let _uncached_cve_ptrs := cve_id_array.filter (fun c => (alGet cache c).isNone)
  let cache2 := _uncached_cve_ptrs.foldl (mitreCacheStep fetch) cache
  (cve_id_array.map (fun c => (c, alGet cache2 c)), cache2, _uncached_cve_ptrs.length)

/- ===== _fetch_epss_scores (Entity Enrichment, EPSS) ===== -/

/-- The EPSS cache.  Keys are whatever JSON value the response item carried
under "cve" (Python dict keys); the program looks ids up as strings. -/
abbrev EpssCache := List (Json × ℚ)

/-- A value in the returned EPSS map: a cached score or the string "n/a". -/
inductive EpssVal where
  | score (q : ℚ)
  | na
deriving DecidableEq

/-- Outcome of the single batched EPSS request: an exception anywhere in the
request or JSON decode (`exn`), or a status with a decoded body. -/
inductive EpssResp where
  | exn
  | success (status : ℕ) (body : Json)

/-- Python float(x) on a JSON value (the "epss" field of a response item). -/
def pyFloatJ (j : Json) : Option ℚ :=
  match j with
  | .num q => some q
  | .str s => parseDecimal s
  | .bool b => some (if b then 1 else 0)
  | _ => none

/-- The response-processing loop of _fetch_epss_scores: for each item with
both a "cve" and an "epss" key, cache float(epss) under the cve key.  A raise
mid-loop (float() on a bad value, key test on a non-dict) is caught by the
enclosing try, keeping the writes already made and abandoning the rest. -/
def _epss_cache_loop : List Json → EpssCache → EpssCache
  | [], cache => cache
  | item :: rest, cache =>
    match item with
    | .obj _ =>
      match item.get "cve", item.get "epss" with
      | some cveKey, some epssVal =>
        match pyFloatJ epssVal with
        | some q => _epss_cache_loop rest (dictInsert cache cveKey q)
        | none => cache
      | _, _ => _epss_cache_loop rest cache
    | _ => cache

def epssLookup (cache : EpssCache) (cve_id : String) : EpssVal :=
  match alGet cache (Json.str cve_id) with
  | some q => .score q
  | none => .na

/-- Cache effect of one batched EPSS response: only a 200 response with a
"data" array is processed; an exception, another status or another body
shape leaves the cache untouched (the try swallows any raise). -/
def epssApplyResp (resp : EpssResp) (cache : EpssCache) : EpssCache :=
  match resp with
  | .exn => cache
  | .success status body =>
    if status = 200 then
      match body.get "data" with
      | some (.arr items) => _epss_cache_loop items.toList cache
      | _ => cache
    else cache

/-- src/main.py _fetch_epss_scores over an engine cache.  When every id is
cached the function returns from cache with no request; otherwise it issues
exactly one batched request (third component counts requests) carrying the
uncached ids, processes a 200 response's "data" array through the cache loop
(any raise is caught and logged), and answers every id from the updated
cache, "n/a" where still missing. -/
def _fetch_epss_scores (server : List String → EpssResp) (cache : EpssCache)
    (cve_id_array : List String) :
    List (String × EpssVal) × EpssCache × ℕ :=
  let _uncached_cve_ptrs :=
    cve_id_array.filter (fun c => (alGet cache (Json.str c)).isNone)
  if _uncached_cve_ptrs.isEmpty then
    (cve_id_array.map (fun c => (c, epssLookup cache c)), cache, 0)
  else
    let cache2 := epssApplyResp (server _uncached_cve_ptrs) cache
    (cve_id_array.map (fun c => (c, epssLookup cache2 c)), cache2, 1)

/- ===== MemCache (the Result Cache) ===== -/

/-- A row of the final dataset: a Python dict from column name to cell. -/
abbrev PyRow := List (String × Json)

/-- src/main.py MemCache state: cached data, write timestamp, TTL.  Time is
in minutes. -/
structure MemCache where
  data_ptr : Option (List PyRow)
  timestamp : Option ℚ
  ttl : ℚ

namespace MemCache

/-- MemCache.__init__(ttl_min). -/
def init (ttl_min : ℚ) : MemCache := ⟨none, none, ttl_min⟩

/-- src/main.py MemCache._check_validity: falsy data (None or the empty
list) or a missing timestamp is invalid; otherwise valid iff the age is
strictly below the TTL. -/
def _check_validity (c : MemCache) (now : ℚ) : Bool :=
  match c.data_ptr, c.timestamp with
  | some d, some t0 => if d.isEmpty then false else decide (now - t0 < c.ttl)
  | _, _ => false

/-- src/main.py MemCache._update_cache. -/
def _update_cache (c : MemCache) (now : ℚ) (new_data : List PyRow) : MemCache :=
  { c with data_ptr := some new_data, timestamp := some now }

/-- src/main.py MemCache._get_cache (the data as last stored; only read
after a successful validity check, where it is `some`). -/
def _get_cache (c : MemCache) : List PyRow := c.data_ptr.getD []

/-- src/main.py MemCache._get_or_fetch under the mutex: serve the cache when
valid, else invoke the fetch function (its result is the explicit
`fetch_result` argument), store it with the current time and return it.  The
third component records whether the fetch function was invoked. -/
def _get_or_fetch (c : MemCache) (now : ℚ) (fetch_result : List PyRow) :
    List PyRow × MemCache × Bool :=
  if c._check_validity now then (c._get_cache, c, false)
  else (fetch_result, c._update_cache now fetch_result, true)

end MemCache

/- ===== Feed decoding and CVE extraction ===== -/

/-- One feedparser entry before date parsing: the title, the link, and the
outcome of strptime on the published field composed with .date().isoformat()
(`none` models strptime raising ValueError on a malformed date). -/
structure RawEntry where
  title : String
  link : String
  published : Option String
deriving DecidableEq

/-- A decoded feed entry as _decode_rss_stream builds it. -/
structure FeedEntry where
  title : String
  link : String
  type : String
  date : String
deriving DecidableEq

/-- The kinds of Python exception the embedded pipeline can propagate. -/
inductive PyErr where
  | valueError
deriving DecidableEq

/-- Scan helper for the title regex: drop characters up to and including the
next close paren, if any. -/
def dropThroughClose : List Char → Option (List Char)
  | [] => none
  | c :: rest => if c = ')' then some rest else dropThroughClose rest

/-- Fuel-bounded scan for re.sub removing non-greedy parenthesized runs; the
fuel (the string length) strictly exceeds the number of scan steps, since
each step consumes at least one character. -/
def stripParensGo : ℕ → List Char → List Char
  | 0, cs => cs
  | _, [] => []
  | fuel + 1, c :: rest =>
    if c = '(' then
      match dropThroughClose rest with
      | some rest2 => stripParensGo fuel rest2
      | none => c :: stripParensGo fuel rest
    else c :: stripParensGo fuel rest

/-- Python re.sub removing each non-greedy parenthesized substring, as
applied to feed titles. -/
def stripParens (s : String) : String :=
  String.mk (stripParensGo s.toList.length s.toList)

/-- Substring test, for the "alerte" marker in the bulletin link. -/
def strContainsSub (s pat : String) : Bool :=
  s.toList.tails.any (fun t => pat.toList.isPrefixOf t)

/-- The network world one aggregator run sees: the parsed feed items at each
feed address, the HTTP outcome of every GET issued through
_fetch_remote_data, and the response to the batched EPSS query. -/
structure NetEnv where
  feedRaw : String → List RawEntry
  http : String → HttpResult
  epssResp : List String → EpssResp

/-- src/main.py _decode_rss_stream: per feed item, strip parenthesized text
from the title, classify Alerte/Avis by the "alerte" marker in the lowercased
link, and parse the published date; the first malformed date raises out of
the whole call (the list comprehension is all-or-nothing). -/
def _decode_rss_stream (env : NetEnv) (feed_addr : String) :
    Except PyErr (List FeedEntry) :=
  (env.feedRaw feed_addr).mapM (fun e =>
    match e.published with
    | none => .error .valueError
    | some d => .ok
        { title := stripParens e.title,
          link := e.link,
          type := if strContainsSub e.link.toLower "alerte" then "Alerte" else "Avis",
          date := d })

/-- One extracted CVE reference (the dict _process_cve_batch appends). -/
structure CveBlock where
  cve_id : String
  title : String
  type : String
  date : String
  link : String
deriving DecidableEq

/-- src/main.py _process_cve_batch: fetch link + "json" for every entry,
skip falsy responses and responses without a "cves" key, and emit one block
per element of the "cves" array that has a "name", copying the entry fields.
(Python would accept a non-string name as a key; only string names occur and
others are not modelled.) -/
def _process_cve_batch (env : NetEnv) (feed_entries : List FeedEntry) :
    List CveBlock :=
  feed_entries.flatMap (fun e =>
    let _data_block := _fetch_remote_data (env.http (e.link ++ "json"))
    if ¬ _data_block.truthy then []
    else
      match _data_block.get "cves" with
      | some (.arr cves) =>
        cves.toList.filterMap (fun cb =>
          match cb.get "name" with
          | some (.str nm) => some ⟨nm, e.title, e.type, e.date, e.link⟩
          | _ => none)
      | _ => [])

/- ===== Row assembly (stage 4 of _process_data_chunk) ===== -/

/-- Fuel-bounded decimal digits of a rational in [0,1). -/
def fracDigitsGo : ℕ → ℚ → List Char
  | 0, _ => []
  | fuel + 1, x =>
    let x10 := x * 10
    let d := x10.floor
    Char.ofNat (48 + d.toNat) ::
      (if x10 - (d : ℚ) = 0 then [] else fracDigitsGo fuel (x10 - (d : ℚ)))

/-- Python str() of a cached EPSS float.  Renders a terminating decimal,
exact for the decimal-valued scores the program caches; no theorem below
inspects this rendering. -/
def pyFloatRepr (q : ℚ) : String :=
  let neg := decide (q < 0)
  let a : ℚ := if neg then -q else q
  let ip : ℕ := a.floor.toNat
  let frac := fracDigitsGo 17 (a - (a.floor : ℚ))
  (if neg then "-" else "") ++ toString ip ++ "." ++
    (if frac.isEmpty then "0" else String.mk frac)

/-- Python str() of an EPSS map value (a float, or the string "n/a"). -/
def epssCellStr : EpssVal → String
  | .score q => pyFloatRepr q
  | .na => "n/a"

/-- One normalized output row (the _data_row dict of _process_data_chunk).
`mitre_block` is the per-id value of the MITRE map: `none` is the empty dict
of an unenriched id, whose .get calls all take their defaults, and whose
cvss_score lookup hands None to the classifier. -/
def buildRow (blk : CveBlock) (mitre_block : Option MitreRecord)
    (epss_val : EpssVal) : PyRow :=
  [("Titre du bulletin (ANSSI)", .str blk.title),
   ("Type de bulletin", .str blk.type),
   ("Date de publication", .str blk.date),
   ("Identifiant CVE", .str blk.cve_id),
   ("Score CVSS", (mitre_block.map (·.cvss_score)).getD (.str "n/a")),
   ("Base Severity", .str (_compute_threat_vector (mitre_block.map (·.cvss_score)))),
   ("Type CWE", (mitre_block.map (·.cwe_desc)).getD (.str "n/a")),
   ("Score EPSS", .str (epssCellStr epss_val)),
   ("Lien du bulletin (ANSSI)", .str blk.link),
   ("Description", (mitre_block.map (·.description)).getD (.str "n/a")),
   ("Éditeur", (mitre_block.map (·.vendor)).getD (.str "n/a")),
   ("Produit", (mitre_block.map (·.product)).getD (.str "n/a")),
   ("Versions affectées", (mitre_block.map (fun r => Json.str r.versions)).getD (.str "n/a"))]

/-- The fixed column set of every assembled row, in assembly order. -/
def STD_COLS : List String :=
  ["Titre du bulletin (ANSSI)", "Type de bulletin", "Date de publication",
   "Identifiant CVE", "Score CVSS", "Base Severity", "Type CWE", "Score EPSS",
   "Lien du bulletin (ANSSI)", "Description", "Éditeur", "Produit",
   "Versions affectées"]

/-- src/main.py _process_data_chunk: decode the feed (a decode failure
propagates), extract CVE blocks (empty result short-circuits to an empty
frame), enrich through a fresh engine's MITRE and EPSS paths, and assemble
one row per block. -/
def _process_data_chunk (env : NetEnv) (feed_addr : String) :
    Except PyErr (List PyRow) := do
  let _feed_entries ← _decode_rss_stream env feed_addr
  let _cve_blocks := _process_cve_batch env _feed_entries
  if _cve_blocks.isEmpty then return []
  let _cve_id_array := _cve_blocks.map (·.cve_id)
  let _mitre_data :=
    (_fetch_mitre_metadata (fun url => _fetch_remote_data (env.http url)) []
      _cve_id_array).1
  let _epss_data := (_fetch_epss_scores env.epssResp [] _cve_id_array).1
  return _cve_blocks.map (fun blk =>
    buildRow blk ((alGet _mitre_data blk.cve_id).getD none)
      ((alGet _epss_data blk.cve_id).getD .na))

/- ===== Sorting and final assembly (_fetch_all_data) ===== -/

/-- Lexicographic order on character lists; on the zero-padded ISO dates of
the rows it agrees with the datetime order pandas sorts by. -/
def lexLe : List Char → List Char → Bool
  | [], _ => true
  | _ :: _, [] => false
  | a :: as, b :: bs => if a = b then lexLe as bs else decide (a < b)

/-- The sort key: the "Date de publication" cell (always an ISO date string
for rows built by the pipeline; pd.to_datetime / strftime round-trips it). -/
def rowDate (r : PyRow) : String :=
  match alGet r "Date de publication" with
  | some (.str d) => d
  | _ => ""

def rowDateLe (a b : PyRow) : Bool := lexLe (rowDate a).toList (rowDate b).toList

/-- Stable descending insertion: a row is placed after every row whose date
is greater than or equal to its own. -/
def insertRowDesc (r : PyRow) : List PyRow → List PyRow
  | [] => [r]
  | x :: xs => if rowDateLe r x then x :: insertRowDesc r xs else r :: x :: xs

/-- pandas sort_values("Date de publication", ascending=False) as the source
calls it (default kind, no stability requested).  pandas reverses the frame,
takes a numpy ascending argsort and reverses the indexer; numpy's default
kind runs a plain insertion sort below its 16-element cutoff, for which that
recipe is exactly this stable descending insertion sort — the model is exact
there, and every input a theorem below evaluates is that small.  At 16 rows
or more numpy switches to introsort, whose ordering among equal dates the
repository's code does not determine: for such inputs only the sortedness of
the result and the multiset of rows are warranted by the source, and no
theorem below relies on this model's tie order. -/
def sortRowsDesc (rows : List PyRow) : List PyRow :=
  rows.foldl (fun acc r => insertRowDesc r acc) []

/-- The DataFrame column set: union of row keys in order of first
appearance, as pd.concat of the per-feed frames produces. -/
def dfColumns (rows : List PyRow) : List String :=
  rows.foldl
    (fun cols r => cols ++ (r.map Prod.fst).filter (fun c => ¬ cols.contains c)) []

/-- The four columns _fetch_all_data backfills when absent. -/
def FIXED_COLS : List String :=
  ["Score CVSS", "Type CWE", "Base Severity", "Score EPSS"]

/-- The consolidation tail of src/main.py _fetch_all_data: drop empty
per-feed frames (returning [] when none remain), concatenate, sort by
publication date descending, add any absent fixed column as "n/a", and leave
every missing cell as "n/a" (fillna) while flattening to records. -/
def aggregateChunks (df_chunks : List (List PyRow)) : List PyRow :=
  let kept := df_chunks.filter (fun c => ¬ c.isEmpty)
  if kept.isEmpty then []
  else
    let sorted := sortRowsDesc kept.flatten
    let cols := dfColumns sorted
    let cols2 := cols ++ FIXED_COLS.filter (fun c => ¬ cols.contains c)
    sorted.map (fun r => cols2.map (fun c => (c, (alGet r c).getD (Json.str "n/a"))))

/-- src/main.py _fetch_all_data over an explicit feed list: pass 1 decodes
and extracts every feed to pre-count rows (a decode failure raises out of the
whole call), pass 2 runs _process_data_chunk per feed and gathers (the first
failure propagates, discarding every feed's rows), then consolidates. -/
def _fetch_all_data_feeds (env : NetEnv) (rss_addr_array : List String) :
    Except PyErr (List PyRow) := do
  let _counts ← rss_addr_array.mapM (fun addr => do
    let entries ← _decode_rss_stream env addr
    pure (_process_cve_batch env entries).length)
  let df_chunks ← rss_addr_array.mapM (fun addr => _process_data_chunk env addr)
  return aggregateChunks df_chunks

/-- The configured feed addresses of src/main.py. -/
def _RSS_ADDR_ARRAY : List String :=
  ["https://www.cert.ssi.gouv.fr/avis/feed",
   "https://www.cert.ssi.gouv.fr/alerte/feed"]

/-- src/main.py _fetch_all_data on its configured feeds. -/
def _fetch_all_data (env : NetEnv) : Except PyErr (List PyRow) :=
  _fetch_all_data_feeds env _RSS_ADDR_ARRAY

/- ===== Sequences of enrichment calls (for the append-only claim) ===== -/

/-- One enrichment call on the engine, with the server behaviour it meets:
a MITRE batch sees a per-URL response map, an EPSS batch sees one response. -/
inductive EnrichOp where
  | mitre (ids : List String) (fetch : String → Json)
  | epss (ids : List String) (resp : EpssResp)

/-- The two per-entity caches of one engine instance. -/
structure CachePair where
  mitreC : MitreCache
  epssC : EpssCache

/-- Effect of one enrichment call on the caches. -/
def stepOp (s : CachePair) : EnrichOp → CachePair
  | .mitre ids fetch => { s with mitreC := (_fetch_mitre_metadata fetch s.mitreC ids).2.1 }
  | .epss ids resp =>
      { s with epssC := (_fetch_epss_scores (fun _ => resp) s.epssC ids).2.1 }

/-- Effect of a sequence of enrichment calls. -/
def runOps (s : CachePair) (ops : List EnrichOp) : CachePair := ops.foldl stepOp s

/-- An EPSS response carrying a data item whose "cve" field is this key (the
only way _fetch_epss_scores writes that key). -/
def epssRespTouches (resp : EpssResp) (k : Json) : Prop :=
  match resp with
  | .exn => False
  | .success _ body =>
    match body.get "data" with
    | some (.arr items) => ∃ it ∈ items.toList, it.get "cve" = some k
    | _ => False

/-- An operation that can write the EPSS cache at this key. -/
def opTouchesEpss (op : EnrichOp) (k : Json) : Prop :=
  match op with
  | .mitre _ _ => False
  | .epss _ resp => epssRespTouches resp k

/- ===== Concrete scenario data used by the claim evaluations below ===== -/

/-- Detail document of the valid bulletin in the feed-isolation scenario. -/
def c1DetailDoc : Json :=
  Json.jobj [("cves", Json.jarr [Json.jobj [("name", Json.str "CVE-2024-1234")]])]

/-- A network world where the avis feed has one well-formed bulletin whose
detail document references one CVE, while the alerte feed has one entry whose
published date is malformed (strptime raises); enrichment GETs fail (which
only yields "n/a" columns and is irrelevant to the isolation question). -/
def c1Env : NetEnv :=
  { feedRaw := fun addr =>
      if addr = "https://www.cert.ssi.gouv.fr/avis/feed" then
        [{ title := "Bulletin A",
           link := "https://www.cert.ssi.gouv.fr/avis/AV-1/",
           published := some "2024-01-18" }]
      else
        [{ title := "Bulletin B",
           link := "https://www.cert.ssi.gouv.fr/alerte/AL-1/",
           published := none }],
    http := fun url =>
      if url = "https://www.cert.ssi.gouv.fr/avis/AV-1/json" then
        .success 200 (.ok c1DetailDoc)
      else .netError,
    epssResp := fun _ => .exn }

/-- A minimal recognized MITRE response (truthy, has "containers"); every
inner field defaults to "n/a" during parsing. -/
def c3MitreDoc : Json := Json.jobj [("containers", Json.empty)]

/-- An EPSS response answering CVE-2024-0001 with score 0.5. -/
def c3EpssResp : EpssResp :=
  .success 200 (Json.jobj [("data",
    Json.jarr [Json.jobj [("cve", .str "CVE-2024-0001"), ("epss", .str "0.5")]])])

/-- EPSS response of the first overwrite-scenario call: CVE-A scores 0.5. -/
def c10RespA : EpssResp :=
  .success 200 (Json.jobj [("data",
    Json.jarr [Json.jobj [("cve", .str "CVE-A"), ("epss", .str "0.5")]])])

/-- EPSS response of the second overwrite-scenario call (for CVE-B): it also
carries a CVE-A item with a different score, 0.9. -/
def c10RespB : EpssResp :=
  .success 200 (Json.jobj [("data",
    Json.jarr [Json.jobj [("cve", .str "CVE-A"), ("epss", .str "0.9")],
               Json.jobj [("cve", .str "CVE-B"), ("epss", .str "0.1")]])])

/-- A MITRE record for the append-only witness cache. -/
def c10Rec : MitreRecord :=
  { cvss_score := .num 5, description := .str "d", cwe_desc := .str "c",
    vendor := .str "v", product := .str "p", versions := "1.0" }

/-- Initial caches of the append-only witness: CVE-A enriched in both. -/
def c10Start : CachePair :=
  { mitreC := [("CVE-A", c10Rec)], epssC := [(Json.str "CVE-A", 1/2)] }

/-- Later calls of the append-only witness: both enrich only CVE-B, and the
EPSS response mentions only CVE-B. -/
def c10Ops : List EnrichOp :=
  [.mitre ["CVE-B"] (fun _ => c3MitreDoc),
   .epss ["CVE-B"] (.success 200 (Json.jobj [("data",
      Json.jarr [Json.jobj [("cve", .str "CVE-B"), ("epss", .str "0.1")]])]))]

/- ===================================================================== -/
/- ===== Theorems: generic dictionary lemmas                       ===== -/
/- ===================================================================== -/

theorem alGet_map_replace {κ α : Type} [DecidableEq κ] (d : List (κ × α)) (k : κ) (v : α)
    (h : (alGet d k).isSome = true) :
    alGet (d.map (fun p => if p.1 = k then (k, v) else p)) k = some v := by
  induction d with
  | nil => simp [alGet] at h
  | cons p rest ih =>
    by_cases hk : p.1 = k
    · simp [alGet, hk]
    · simp only [List.map_cons, if_neg hk]
      rw [alGet, if_neg hk]
      exact ih (by rwa [alGet, if_neg hk] at h)

theorem alGet_map_replace_ne {κ α : Type} [DecidableEq κ] (d : List (κ × α)) (k k' : κ) (v : α)
    (hne : k' ≠ k) :
    alGet (d.map (fun p => if p.1 = k then (k, v) else p)) k' = alGet d k' := by
  induction d with
  | nil => rfl
  | cons p rest ih =>
    by_cases hk : p.1 = k
    · simp only [List.map_cons, if_pos hk]
      rw [alGet, alGet, if_neg (Ne.symm hne), if_neg (by rw [hk]; exact Ne.symm hne)]
      exact ih
    · simp only [List.map_cons, if_neg hk]
      rw [alGet, alGet]
      by_cases hk' : p.1 = k'
      · rw [if_pos hk', if_pos hk']
      · rw [if_neg hk', if_neg hk']
        exact ih

theorem alGet_append_right {κ α : Type} [DecidableEq κ] (d l : List (κ × α)) (k : κ)
    (h : alGet d k = none) : alGet (d ++ l) k = alGet l k := by
  induction d with
  | nil => rfl
  | cons p rest ih =>
    rw [alGet] at h
    by_cases hk : p.1 = k
    · rw [if_pos hk] at h; cases h
    · rw [if_neg hk] at h
      rw [List.cons_append, alGet, if_neg hk]
      exact ih h

theorem alGet_dictInsert_self {κ α : Type} [DecidableEq κ] (d : List (κ × α)) (k : κ) (v : α) :
    alGet (dictInsert d k v) k = some v := by
  unfold dictInsert
  split
  · exact alGet_map_replace d k v (by assumption)
  · rename_i h
    have hn : alGet d k = none := by
      cases hh : alGet d k
      · rfl
      · rw [hh] at h; simp at h
    rw [alGet_append_right d _ k hn, alGet, if_pos rfl]

theorem alGet_append_single_ne {κ α : Type} [DecidableEq κ] (d : List (κ × α)) (k k' : κ)
    (v : α) (hne : k' ≠ k) : alGet (d ++ [(k, v)]) k' = alGet d k' := by
  induction d with
  | nil => simp [alGet, Ne.symm hne]
  | cons p rest ih =>
    rw [List.cons_append, alGet, alGet]
    by_cases hk' : p.1 = k'
    · rw [if_pos hk', if_pos hk']
    · rw [if_neg hk', if_neg hk']
      exact ih

theorem alGet_dictInsert_ne {κ α : Type} [DecidableEq κ] (d : List (κ × α)) (k k' : κ) (v : α)
    (hne : k' ≠ k) : alGet (dictInsert d k v) k' = alGet d k' := by
  unfold dictInsert
  split
  · exact alGet_map_replace_ne d k k' v hne
  · exact alGet_append_single_ne d k k' v hne

theorem alGet_dictInsert_isSome {κ α : Type} [DecidableEq κ] (d : List (κ × α)) (k k' : κ) (v : α)
    (h : (alGet d k').isSome = true) : (alGet (dictInsert d k v) k').isSome = true := by
  by_cases hk : k' = k
  · rw [hk, alGet_dictInsert_self]; rfl
  · rw [alGet_dictInsert_ne d k k' v hk]; exact h

theorem alGet_map_pair {κ α : Type} [DecidableEq κ] (f : κ → α) :
    ∀ (ids : List κ) (k : κ), k ∈ ids →
      alGet (ids.map (fun c => (c, f c))) k = some (f k) := by
  intro ids
  induction ids with
  | nil => intro k hk; cases hk
  | cons c rest ih =>
    intro k hk
    rw [List.map_cons, alGet]
    by_cases hc : c = k
    · rw [if_pos hc, hc]
    · rw [if_neg hc]
      exact ih k (by cases hk with
        | head => exact absurd rfl hc
        | tail _ h => exact h)

/- ===================================================================== -/
/- ===== C2 and C9: the Threat Classifier                          ===== -/
/- ===================================================================== -/

/-- C2: the claimed partition of [0,10] fails on the code.  The boundary
points of the claim all evaluate as stated, but 3.5 (like 6.5 and 8.5) falls
in a gap of the if/elif chain and returns "n/a", contradicting both the
claim and the function's own docstring mapping (0.0-3.9 -> Faible,
4.0-6.9 -> Moyenne, 7.0-8.9 -> Élevée). -/
theorem c2_classifier_gap_eval :
    _compute_threat_vector (some (.str "3.5")) = "n/a"
  ∧ _compute_threat_vector (some (.str "6.5")) = "n/a"
  ∧ _compute_threat_vector (some (.str "8.5")) = "n/a"
  ∧ _compute_threat_vector (some (.str "3")) = "Faible"
  ∧ _compute_threat_vector (some (.str "4")) = "Moyenne"
  ∧ _compute_threat_vector (some (.str "6")) = "Moyenne"
  ∧ _compute_threat_vector (some (.str "7")) = "Élevée"
  ∧ _compute_threat_vector (some (.str "8")) = "Élevée"
  ∧ _compute_threat_vector (some (.str "9")) = "Critique"
  ∧ _compute_threat_vector (some (.str "10")) = "Critique"
  ∧ _compute_threat_vector (some (.str "10.1")) = "n/a"
  ∧ _compute_threat_vector (some (.str "abc")) = "n/a" := by
  decide

/-- C9: the classifier maps a failed parse to "n/a", each stated inclusive
range to its band, and any parsed value outside [0,10] to "n/a"; it is a
pure function of its argument. -/
theorem c9_classifier_ranges (raw_cvss_ptr : Option Json) :
    (pyFloat raw_cvss_ptr = none → _compute_threat_vector raw_cvss_ptr = "n/a")
  ∧ ∀ q : ℚ, pyFloat raw_cvss_ptr = some q →
      ((0 ≤ q ∧ q ≤ 3 → _compute_threat_vector raw_cvss_ptr = "Faible")
     ∧ (4 ≤ q ∧ q ≤ 6 → _compute_threat_vector raw_cvss_ptr = "Moyenne")
     ∧ (7 ≤ q ∧ q ≤ 8 → _compute_threat_vector raw_cvss_ptr = "Élevée")
     ∧ (9 ≤ q ∧ q ≤ 10 → _compute_threat_vector raw_cvss_ptr = "Critique")
     ∧ ((q < 0 ∨ 10 < q) → _compute_threat_vector raw_cvss_ptr = "n/a")) := by
  constructor
  · intro h
    unfold _compute_threat_vector
    rw [h]
  · intro q hq
    have hred : _compute_threat_vector raw_cvss_ptr =
        (if 0 ≤ q ∧ q ≤ 3 then "Faible" else if 4 ≤ q ∧ q ≤ 6 then "Moyenne"
         else if 7 ≤ q ∧ q ≤ 8 then "Élevée"
         else if 9 ≤ q ∧ q ≤ 10 then "Critique" else "n/a") := by
      unfold _compute_threat_vector
      rw [hq]
    rw [hred]
    refine ⟨fun hr => ?_, fun hr => ?_, fun hr => ?_, fun hr => ?_, fun hr => ?_⟩
    · rw [if_pos hr]
    · have h1 : ¬ (0 ≤ q ∧ q ≤ 3) := fun h => by linarith [h.2, hr.1]
      rw [if_neg h1, if_pos hr]
    · have h1 : ¬ (0 ≤ q ∧ q ≤ 3) := fun h => by linarith [h.2, hr.1]
      have h2 : ¬ (4 ≤ q ∧ q ≤ 6) := fun h => by linarith [h.2, hr.1]
      rw [if_neg h1, if_neg h2, if_pos hr]
    · have h1 : ¬ (0 ≤ q ∧ q ≤ 3) := fun h => by linarith [h.2, hr.1]
      have h2 : ¬ (4 ≤ q ∧ q ≤ 6) := fun h => by linarith [h.2, hr.1]
      have h3 : ¬ (7 ≤ q ∧ q ≤ 8) := fun h => by linarith [h.2, hr.1]
      rw [if_neg h1, if_neg h2, if_neg h3, if_pos hr]
    · rcases hr with hr | hr
      · have h1 : ¬ (0 ≤ q ∧ q ≤ 3) := fun h => by linarith [h.1]
        have h2 : ¬ (4 ≤ q ∧ q ≤ 6) := fun h => by linarith [h.1]
        have h3 : ¬ (7 ≤ q ∧ q ≤ 8) := fun h => by linarith [h.1]
        have h4 : ¬ (9 ≤ q ∧ q ≤ 10) := fun h => by linarith [h.1]
        rw [if_neg h1, if_neg h2, if_neg h3, if_neg h4]
      · have h1 : ¬ (0 ≤ q ∧ q ≤ 3) := fun h => by linarith [h.2]
        have h2 : ¬ (4 ≤ q ∧ q ≤ 6) := fun h => by linarith [h.2]
        have h3 : ¬ (7 ≤ q ∧ q ≤ 8) := fun h => by linarith [h.2]
        have h4 : ¬ (9 ≤ q ∧ q ≤ 10) := fun h => by linarith [h.2]
        rw [if_neg h1, if_neg h2, if_neg h3, if_neg h4]

/-- Witness for C9: the bands at parsed scores 5 and 7.5 and a parse
failure, via the range theorem. -/
theorem c9_classifier_ranges_witness :
    _compute_threat_vector (some (.num 5)) = "Moyenne"
  ∧ _compute_threat_vector (some (.num (15/2))) = "Élevée"
  ∧ _compute_threat_vector (some (.str "n/a")) = "n/a" := by
  refine ⟨((c9_classifier_ranges (some (.num 5))).2 5 rfl).2.1 (by norm_num),
          ((c9_classifier_ranges (some (.num (15/2)))).2 (15/2) rfl).2.2.1 (by norm_num),
          (c9_classifier_ranges (some (.str "n/a"))).1 (by decide)⟩

/- ===================================================================== -/
/- ===== C6: the Bounded Fetch Client never raises                 ===== -/
/- ===================================================================== -/

/-- C6: _fetch_remote_data is a total function of the request outcome (the
bare except catches every raise), yielding the empty object on a network
error, on any non-200 status and on a body-decode failure, and the decoded
object on a decodable 200 response. -/
theorem c6_fetch_contract (resp : HttpResult) :
    (resp = .netError → _fetch_remote_data resp = Json.empty)
  ∧ (∀ s b, resp = .success s b → ¬ s = 200 → _fetch_remote_data resp = Json.empty)
  ∧ (∀ s, resp = .success s (.error ()) → _fetch_remote_data resp = Json.empty)
  ∧ (∀ j, resp = .success 200 (.ok j) → _fetch_remote_data resp = j) := by
  refine ⟨fun h => ?_, fun s b h hs => ?_, fun s h => ?_, fun j h => ?_⟩
  · subst h; rfl
  · subst h
    simp only [_fetch_remote_data]
    rw [if_neg hs]
  · subst h
    simp only [_fetch_remote_data]
    by_cases hs : s = 200
    · rw [if_pos hs]
    · rw [if_neg hs]
  · subst h
    simp [_fetch_remote_data]

/-- Witness for C6: a decodable 200 response, a 404 and a network error. -/
theorem c6_fetch_contract_witness :
    _fetch_remote_data (.success 200 (.ok (Json.jobj [("a", .num 1)]))) =
      Json.jobj [("a", .num 1)]
  ∧ _fetch_remote_data (.success 404 (.ok (Json.jobj [("a", .num 1)]))) = Json.empty
  ∧ _fetch_remote_data (.success 200 (.error ())) = Json.empty
  ∧ _fetch_remote_data .netError = Json.empty :=
  ⟨(c6_fetch_contract _).2.2.2 _ rfl,
   (c6_fetch_contract _).2.1 404 _ rfl (by decide),
   (c6_fetch_contract _).2.2.1 200 rfl,
   (c6_fetch_contract _).1 rfl⟩

/- ===================================================================== -/
/- ===== C4 and C5: the Result Cache TTL boundary                  ===== -/
/- ===================================================================== -/

/-- C5: a cached empty dataset is falsy, so the validity check fails at any
age and every _get_or_fetch call invokes the refresh function again. -/
theorem c5_empty_snapshot_always_stale (c : MemCache) (now : ℚ) (fetched : List PyRow)
    (h : c.data_ptr = some []) :
    c._check_validity now = false ∧ (c._get_or_fetch now fetched).2.2 = true := by
  have hv : c._check_validity now = false := by
    unfold MemCache._check_validity
    rw [h]
    cases c.timestamp <;> simp
  refine ⟨hv, ?_⟩
  unfold MemCache._get_or_fetch
  rw [hv]
  simp

/-- Witness for C5: an empty snapshot stored at time 0 with TTL 60 is stale
one minute later. -/
theorem c5_empty_snapshot_always_stale_witness :
    (⟨some [], some 0, 60⟩ : MemCache)._check_validity 1 = false
  ∧ ((⟨some [], some 0, 60⟩ : MemCache)._get_or_fetch 1 []).2.2 = true :=
  c5_empty_snapshot_always_stale _ 1 [] rfl

/-- C4 counterexample: a refresh at time 0 stores the empty dataset (the
claim quantifies over every stored snapshot value); one minute later, well
before the 60-minute TTL, _get_or_fetch invokes the refresh function again
instead of serving the stored snapshot without refreshing. -/
theorem c4_empty_snapshot_counterexample :
    ((MemCache.init 60)._get_or_fetch 0 []).2.2 = true
  ∧ ((MemCache.init 60)._get_or_fetch 0 []).2.1.data_ptr = some []
  ∧ ((MemCache.init 60)._get_or_fetch 0 []).2.1.timestamp = some 0
  ∧ ((1 : ℚ) - 0 < 60)
  ∧ (((MemCache.init 60)._get_or_fetch 0 []).2.1._get_or_fetch 1 []).2.2 = true := by
  decide

/-- C4 (amended): for every non-empty (truthy) snapshot stored at t0, a call
before t0 + TTL returns the stored snapshot unchanged without invoking the
refresh function, and a call at or after t0 + TTL invokes it, stores its
result with the new timestamp and returns it. -/
theorem c4_ttl_boundary_amended (c : MemCache) (t0 now : ℚ) (v fetched : List PyRow)
    (hdata : c.data_ptr = some v) (hne : v ≠ []) (hts : c.timestamp = some t0) :
    (now - t0 < c.ttl → c._get_or_fetch now fetched = (v, c, false))
  ∧ (c.ttl ≤ now - t0 →
      c._get_or_fetch now fetched = (fetched, c._update_cache now fetched, true)) := by
  have hvE : v.isEmpty = false := by
    cases v with
    | nil => exact absurd rfl hne
    | cons a l => rfl
  constructor
  · intro hlt
    have hv : c._check_validity now = true := by
      unfold MemCache._check_validity
      rw [hdata, hts]
      simp [hvE, hlt]
    unfold MemCache._get_or_fetch
    rw [hv]
    simp [MemCache._get_cache, hdata]
  · intro hge
    have hv : c._check_validity now = false := by
      unfold MemCache._check_validity
      rw [hdata, hts]
      simp [hvE, not_lt.mpr hge]
    unfold MemCache._get_or_fetch
    rw [hv]
    simp

/-- Witness for C4 (amended): a one-row snapshot stored at time 0 with TTL
60 is served unchanged at time 59 and refreshed at time 60. -/
theorem c4_ttl_boundary_amended_witness :
    ((⟨some [[("k", Json.null)]], some 0, 60⟩ : MemCache)._get_or_fetch 59 [] =
      ([[("k", Json.null)]], ⟨some [[("k", Json.null)]], some 0, 60⟩, false))
  ∧ ((⟨some [[("k", Json.null)]], some 0, 60⟩ : MemCache)._get_or_fetch 60 [] =
      ([], (⟨some [[("k", Json.null)]], some 0, 60⟩ : MemCache)._update_cache 60 [], true)) :=
  ⟨(c4_ttl_boundary_amended _ 0 59 _ _ rfl (by simp) rfl).1 (by norm_num),
   (c4_ttl_boundary_amended _ 0 60 _ _ rfl (by simp) rfl).2 (by norm_num)⟩

/- ===================================================================== -/
/- ===== C3: idempotence of enrichment                             ===== -/
/- ===================================================================== -/

theorem mitre_result_shape (fetch : String → Json) (cache : MitreCache) (ids : List String) :
    (_fetch_mitre_metadata fetch cache ids).1 =
      ids.map (fun c => (c, alGet (_fetch_mitre_metadata fetch cache ids).2.1 c)) := rfl

theorem mitre_call_all_cached (fetch : String → Json) (cache : MitreCache) (ids : List String)
    (h : ids.filter (fun c => (alGet cache c).isNone) = []) :
    _fetch_mitre_metadata fetch cache ids =
      (ids.map (fun c => (c, alGet cache c)), cache, 0) := by
  simp only [_fetch_mitre_metadata]
  rw [h]
  rfl

theorem epss_result_shape (server : List String → EpssResp) (cache : EpssCache)
    (ids : List String) :
    (_fetch_epss_scores server cache ids).1 =
      ids.map (fun c => (c, epssLookup (_fetch_epss_scores server cache ids).2.1 c)) := by
  simp only [_fetch_epss_scores]
  split
  · rfl
  · rfl

theorem epss_call_all_cached (server : List String → EpssResp) (cache : EpssCache)
    (ids : List String)
    (h : ids.filter (fun c => (alGet cache (Json.str c)).isNone) = []) :
    _fetch_epss_scores server cache ids =
      (ids.map (fun c => (c, epssLookup cache c)), cache, 0) := by
  simp only [_fetch_epss_scores]
  rw [h]
  rfl

/-- C3 counterexample: with a server answering the single requested id with
the empty object (a failed fetch), the first enrichMitre call makes one
network call and caches nothing, so the second identical call on the
resulting cache makes one more network call, not zero (the result maps are
nevertheless identical). -/
theorem c3_second_call_refetches_counterexample :
    (_fetch_mitre_metadata (fun _ => Json.empty) [] ["CVE-2024-0001"]).2.2 = 1
  ∧ (_fetch_mitre_metadata (fun _ => Json.empty)
      (_fetch_mitre_metadata (fun _ => Json.empty) [] ["CVE-2024-0001"]).2.1
      ["CVE-2024-0001"]).2.2 = 1
  ∧ (_fetch_mitre_metadata (fun _ => Json.empty)
      (_fetch_mitre_metadata (fun _ => Json.empty) [] ["CVE-2024-0001"]).2.1
      ["CVE-2024-0001"]).1 =
      (_fetch_mitre_metadata (fun _ => Json.empty) [] ["CVE-2024-0001"]).1 := by
  decide

/-- C3 (amended): when the first call leaves every requested id cached (every
response had the recognized shape), the second call with the same id set
performs zero network calls, leaves both caches unchanged and returns maps
identical to the first call's.  Ids that failed to cache are re-fetched
instead. -/
theorem c3_idempotence_amended (fetch : String → Json) (server : List String → EpssResp)
    (mcache : MitreCache) (ecache : EpssCache) (cve_id_array : List String)
    (hm : ∀ c ∈ cve_id_array,
      (alGet (_fetch_mitre_metadata fetch mcache cve_id_array).2.1 c).isSome = true)
    (he : ∀ c ∈ cve_id_array,
      (alGet (_fetch_epss_scores server ecache cve_id_array).2.1 (Json.str c)).isSome
        = true) :
    (_fetch_mitre_metadata fetch
        (_fetch_mitre_metadata fetch mcache cve_id_array).2.1 cve_id_array).2.2 = 0
  ∧ (_fetch_epss_scores server
        (_fetch_epss_scores server ecache cve_id_array).2.1 cve_id_array).2.2 = 0
  ∧ (_fetch_mitre_metadata fetch
        (_fetch_mitre_metadata fetch mcache cve_id_array).2.1 cve_id_array).1 =
      (_fetch_mitre_metadata fetch mcache cve_id_array).1
  ∧ (_fetch_epss_scores server
        (_fetch_epss_scores server ecache cve_id_array).2.1 cve_id_array).1 =
      (_fetch_epss_scores server ecache cve_id_array).1
  ∧ (_fetch_mitre_metadata fetch
        (_fetch_mitre_metadata fetch mcache cve_id_array).2.1 cve_id_array).2.1 =
      (_fetch_mitre_metadata fetch mcache cve_id_array).2.1
  ∧ (_fetch_epss_scores server
        (_fetch_epss_scores server ecache cve_id_array).2.1 cve_id_array).2.1 =
      (_fetch_epss_scores server ecache cve_id_array).2.1 := by
  have hu2 : cve_id_array.filter
      (fun c => (alGet (_fetch_mitre_metadata fetch mcache cve_id_array).2.1 c).isNone)
      = [] := by
    rw [List.filter_eq_nil_iff]
    intro c hc
    obtain ⟨v, hv⟩ := Option.isSome_iff_exists.mp (hm c hc)
    rw [hv]
    simp
  have hv2 : cve_id_array.filter
      (fun c => (alGet (_fetch_epss_scores server ecache cve_id_array).2.1
        (Json.str c)).isNone) = [] := by
    rw [List.filter_eq_nil_iff]
    intro c hc
    obtain ⟨v, hv⟩ := Option.isSome_iff_exists.mp (he c hc)
    rw [hv]
    simp
  have hm2 := mitre_call_all_cached fetch
    (_fetch_mitre_metadata fetch mcache cve_id_array).2.1 cve_id_array hu2
  have he2 := epss_call_all_cached server
    (_fetch_epss_scores server ecache cve_id_array).2.1 cve_id_array hv2
  refine ⟨by rw [hm2], by rw [he2], ?_, ?_, by rw [hm2], by rw [he2]⟩
  · rw [hm2]
    exact (mitre_result_shape fetch mcache cve_id_array).symm
  · rw [he2]
    exact (epss_result_shape server ecache cve_id_array).symm

/-- Witness for C3 (amended): one id, a recognized MITRE response and an
EPSS response carrying the id with score 0.5; both second calls make zero
network calls and return the first calls' maps. -/
theorem c3_idempotence_amended_witness :
    (_fetch_mitre_metadata (fun _ => c3MitreDoc)
        (_fetch_mitre_metadata (fun _ => c3MitreDoc) [] ["CVE-2024-0001"]).2.1
        ["CVE-2024-0001"]).2.2 = 0
  ∧ (_fetch_epss_scores (fun _ => c3EpssResp)
        (_fetch_epss_scores (fun _ => c3EpssResp) [] ["CVE-2024-0001"]).2.1
        ["CVE-2024-0001"]).2.2 = 0
  ∧ (_fetch_mitre_metadata (fun _ => c3MitreDoc)
        (_fetch_mitre_metadata (fun _ => c3MitreDoc) [] ["CVE-2024-0001"]).2.1
        ["CVE-2024-0001"]).1 =
      (_fetch_mitre_metadata (fun _ => c3MitreDoc) [] ["CVE-2024-0001"]).1
  ∧ (_fetch_epss_scores (fun _ => c3EpssResp)
        (_fetch_epss_scores (fun _ => c3EpssResp) [] ["CVE-2024-0001"]).2.1
        ["CVE-2024-0001"]).1 =
      (_fetch_epss_scores (fun _ => c3EpssResp) [] ["CVE-2024-0001"]).1
  ∧ (_fetch_mitre_metadata (fun _ => c3MitreDoc)
        (_fetch_mitre_metadata (fun _ => c3MitreDoc) [] ["CVE-2024-0001"]).2.1
        ["CVE-2024-0001"]).2.1 =
      (_fetch_mitre_metadata (fun _ => c3MitreDoc) [] ["CVE-2024-0001"]).2.1
  ∧ (_fetch_epss_scores (fun _ => c3EpssResp)
        (_fetch_epss_scores (fun _ => c3EpssResp) [] ["CVE-2024-0001"]).2.1
        ["CVE-2024-0001"]).2.1 =
      (_fetch_epss_scores (fun _ => c3EpssResp) [] ["CVE-2024-0001"]).2.1 :=
  c3_idempotence_amended (fun _ => c3MitreDoc) (fun _ => c3EpssResp) [] []
    ["CVE-2024-0001"] (by decide) (by decide)

/- ===================================================================== -/
/- ===== C7: join correctness with missing MITRE data              ===== -/
/- ===================================================================== -/

/-- C7: an id requested from enrichMitre that ends with no cache entry is
still answered in the returned map, by the empty record; the row assembled
from that empty record carries "n/a" as severity score, threat band and
every MITRE-sourced column, while id, title, link, type and date are copied
unchanged from the reference; assembly is a total function (no exception). -/
theorem c7_join_missing_mitre (fetch : String → Json) (cache : MitreCache)
    (ids : List String) (blk : CveBlock) (epss_val : EpssVal)
    (hmem : blk.cve_id ∈ ids)
    (hmiss : alGet (_fetch_mitre_metadata fetch cache ids).2.1 blk.cve_id = none) :
    alGet (_fetch_mitre_metadata fetch cache ids).1 blk.cve_id = some none
  ∧ alGet (buildRow blk none epss_val) "Score CVSS" = some (.str "n/a")
  ∧ alGet (buildRow blk none epss_val) "Base Severity" = some (.str "n/a")
  ∧ alGet (buildRow blk none epss_val) "Type CWE" = some (.str "n/a")
  ∧ alGet (buildRow blk none epss_val) "Description" = some (.str "n/a")
  ∧ alGet (buildRow blk none epss_val) "Éditeur" = some (.str "n/a")
  ∧ alGet (buildRow blk none epss_val) "Produit" = some (.str "n/a")
  ∧ alGet (buildRow blk none epss_val) "Versions affectées" = some (.str "n/a")
  ∧ alGet (buildRow blk none epss_val) "Identifiant CVE" = some (.str blk.cve_id)
  ∧ alGet (buildRow blk none epss_val) "Titre du bulletin (ANSSI)" = some (.str blk.title)
  ∧ alGet (buildRow blk none epss_val) "Lien du bulletin (ANSSI)" = some (.str blk.link)
  ∧ alGet (buildRow blk none epss_val) "Type de bulletin" = some (.str blk.type)
  ∧ alGet (buildRow blk none epss_val) "Date de publication" = some (.str blk.date) := by
  refine ⟨?_, ?_⟩
  · rw [mitre_result_shape, alGet_map_pair _ ids blk.cve_id hmem, hmiss]
  · simp [buildRow, alGet, _compute_threat_vector, pyFloat]

/-- Witness for C7: one reference whose only enrichment response is the
empty object, joined with an unavailable EPSS score. -/
theorem c7_join_missing_mitre_witness :
    alGet (_fetch_mitre_metadata (fun _ => Json.empty) [] ["CVE-2024-9999"]).1
      "CVE-2024-9999" = some none
  ∧ alGet (buildRow ⟨"CVE-2024-9999", "T", "Avis", "2024-01-18", "L"⟩ none .na)
      "Score CVSS" = some (.str "n/a")
  ∧ alGet (buildRow ⟨"CVE-2024-9999", "T", "Avis", "2024-01-18", "L"⟩ none .na)
      "Base Severity" = some (.str "n/a")
  ∧ alGet (buildRow ⟨"CVE-2024-9999", "T", "Avis", "2024-01-18", "L"⟩ none .na)
      "Type CWE" = some (.str "n/a")
  ∧ alGet (buildRow ⟨"CVE-2024-9999", "T", "Avis", "2024-01-18", "L"⟩ none .na)
      "Description" = some (.str "n/a")
  ∧ alGet (buildRow ⟨"CVE-2024-9999", "T", "Avis", "2024-01-18", "L"⟩ none .na)
      "Éditeur" = some (.str "n/a")
  ∧ alGet (buildRow ⟨"CVE-2024-9999", "T", "Avis", "2024-01-18", "L"⟩ none .na)
      "Produit" = some (.str "n/a")
  ∧ alGet (buildRow ⟨"CVE-2024-9999", "T", "Avis", "2024-01-18", "L"⟩ none .na)
      "Versions affectées" = some (.str "n/a")
  ∧ alGet (buildRow ⟨"CVE-2024-9999", "T", "Avis", "2024-01-18", "L"⟩ none .na)
      "Identifiant CVE" = some (.str "CVE-2024-9999")
  ∧ alGet (buildRow ⟨"CVE-2024-9999", "T", "Avis", "2024-01-18", "L"⟩ none .na)
      "Titre du bulletin (ANSSI)" = some (.str "T")
  ∧ alGet (buildRow ⟨"CVE-2024-9999", "T", "Avis", "2024-01-18", "L"⟩ none .na)
      "Lien du bulletin (ANSSI)" = some (.str "L")
  ∧ alGet (buildRow ⟨"CVE-2024-9999", "T", "Avis", "2024-01-18", "L"⟩ none .na)
      "Type de bulletin" = some (.str "Avis")
  ∧ alGet (buildRow ⟨"CVE-2024-9999", "T", "Avis", "2024-01-18", "L"⟩ none .na)
      "Date de publication" = some (.str "2024-01-18") :=
  c7_join_missing_mitre (fun _ => Json.empty) [] ["CVE-2024-9999"]
    ⟨"CVE-2024-9999", "T", "Avis", "2024-01-18", "L"⟩ .na (by decide) (by decide)

/- ===================================================================== -/
/- ===== C10: append-only caches                                   ===== -/
/- ===================================================================== -/

theorem foldl_mitreCacheStep_not_mem (fetch : String → Json) (l : List String)
    (cache : MitreCache) (k : String) (hk : k ∉ l) :
    alGet (l.foldl (mitreCacheStep fetch) cache) k = alGet cache k := by
  induction l generalizing cache with
  | nil => rfl
  | cons c rest ih =>
    have hkc : k ≠ c := fun h => hk (h ▸ List.mem_cons_self c rest)
    have hk2 : k ∉ rest := fun h => hk (List.mem_cons_of_mem c h)
    rw [List.foldl_cons, ih _ hk2]
    simp only [mitreCacheStep]
    split
    · exact alGet_dictInsert_ne _ _ _ _ hkc
    · rfl

theorem mitre_step_preserves (fetch : String → Json) (ids : List String)
    (cache : MitreCache) (k : String) (v : MitreRecord) (h : alGet cache k = some v) :
    alGet (_fetch_mitre_metadata fetch cache ids).2.1 k = some v := by
  have hk : k ∉ ids.filter (fun c => (alGet cache c).isNone) := by
    intro hmem
    have h2 := (List.mem_filter.mp hmem).2
    rw [h] at h2
    cases h2
  rw [show (_fetch_mitre_metadata fetch cache ids).2.1 =
    (ids.filter (fun c => (alGet cache c).isNone)).foldl (mitreCacheStep fetch) cache
    from rfl]
  rw [foldl_mitreCacheStep_not_mem fetch _ cache k hk]
  exact h

theorem epss_loop_isSome (items : List Json) (cache : EpssCache) (k : Json)
    (h : (alGet cache k).isSome = true) :
    (alGet (_epss_cache_loop items cache) k).isSome = true := by
  induction items generalizing cache with
  | nil => exact h
  | cons item rest ih =>
    simp only [_epss_cache_loop]
    split
    · split
      · split
        · exact ih _ (alGet_dictInsert_isSome _ _ _ _ h)
        · exact h
      · exact ih _ h
    · exact h

theorem epss_loop_untouched (items : List Json) (cache : EpssCache) (k : Json)
    (h : ∀ it ∈ items, ¬ it.get "cve" = some k) :
    alGet (_epss_cache_loop items cache) k = alGet cache k := by
  induction items generalizing cache with
  | nil => rfl
  | cons item rest ih =>
    have hitem : ¬ item.get "cve" = some k := h item (List.mem_cons_self _ _)
    have hrest : ∀ it ∈ rest, ¬ it.get "cve" = some k :=
      fun it hit => h it (List.mem_cons_of_mem _ hit)
    cases item with
    | obj fs =>
      cases hcve : (Json.obj fs).get "cve" with
      | none =>
        have hred : _epss_cache_loop (Json.obj fs :: rest) cache =
            _epss_cache_loop rest cache := by
          simp only [_epss_cache_loop, hcve]
        rw [hred]
        exact ih _ hrest
      | some cveKey =>
        cases heps : (Json.obj fs).get "epss" with
        | none =>
          have hred : _epss_cache_loop (Json.obj fs :: rest) cache =
              _epss_cache_loop rest cache := by
            simp only [_epss_cache_loop, hcve, heps]
          rw [hred]
          exact ih _ hrest
        | some epssVal =>
          cases hq : pyFloatJ epssVal with
          | none =>
            have hred : _epss_cache_loop (Json.obj fs :: rest) cache = cache := by
              simp only [_epss_cache_loop, hcve, heps, hq]
            rw [hred]
          | some q =>
            have hne : k ≠ cveKey := fun hkk => hitem (by rw [hcve, hkk])
            have hred : _epss_cache_loop (Json.obj fs :: rest) cache =
                _epss_cache_loop rest (dictInsert cache cveKey q) := by
              simp only [_epss_cache_loop, hcve, heps, hq]
            rw [hred, ih _ hrest]
            exact alGet_dictInsert_ne _ _ _ _ hne
    | null => rfl
    | bool b => rfl
    | num q => rfl
    | str s => rfl
    | arr xs => rfl

theorem epss_apply_isSome (resp : EpssResp) (cache : EpssCache) (k : Json)
    (h : (alGet cache k).isSome = true) :
    (alGet (epssApplyResp resp cache) k).isSome = true := by
  unfold epssApplyResp
  split
  · exact h
  · split
    · split
      · exact epss_loop_isSome _ _ _ h
      · exact h
    · exact h

theorem epss_apply_untouched (resp : EpssResp) (cache : EpssCache) (k : Json)
    (ht : ¬ epssRespTouches resp k) :
    alGet (epssApplyResp resp cache) k = alGet cache k := by
  cases resp with
  | exn => rfl
  | success status body =>
    simp only [epssApplyResp]
    by_cases hs : status = 200
    · rw [if_pos hs]
      cases hd : body.get "data" with
      | none => simp only [hd]
      | some j =>
        cases j <;> simp only [hd]
        rename_i items
        apply epss_loop_untouched
        intro it hit hcve
        apply ht
        simp only [epssRespTouches, hd]
        exact ⟨it, hit, hcve⟩
    · rw [if_neg hs]

theorem epss_scores_cache_isSome (server : List String → EpssResp) (cache : EpssCache)
    (ids : List String) (k : Json) (h : (alGet cache k).isSome = true) :
    (alGet (_fetch_epss_scores server cache ids).2.1 k).isSome = true := by
  simp only [_fetch_epss_scores]
  split
  · exact h
  · exact epss_apply_isSome _ _ _ h

theorem epss_scores_cache_untouched (server : List String → EpssResp) (cache : EpssCache)
    (ids : List String) (k : Json) (ht : ∀ u, ¬ epssRespTouches (server u) k) :
    alGet (_fetch_epss_scores server cache ids).2.1 k = alGet cache k := by
  simp only [_fetch_epss_scores]
  split
  · rfl
  · exact epss_apply_untouched _ _ _ (ht _)

/-- C10 counterexample: enrichEpss for CVE-A caches score 0.5; a later
enrichEpss call for CVE-B receives a response that also lists CVE-A with
score 0.9, and the loop overwrites the existing CVE-A entry with the
different value — refuting "no operation overwrites an existing entry with a
different value, for any server responses". -/
theorem c10_epss_overwrite_counterexample :
    alGet (runOps ⟨[], []⟩ [.epss ["CVE-A"] c10RespA]).epssC (Json.str "CVE-A")
      = some (1/2)
  ∧ alGet (runOps ⟨[], []⟩ [.epss ["CVE-A"] c10RespA, .epss ["CVE-B"] c10RespB]).epssC
      (Json.str "CVE-A") = some (9/10)
  ∧ (1/2 : ℚ) ≠ 9/10 :=
  ⟨by decide, by decide, by norm_num⟩

/-- C10 (amended): across any sequence of enrichment calls with any server
responses, no cache entry is ever evicted (a key present in either cache
stays present), a MITRE entry keeps its first-written value, and an EPSS
entry keeps its value through every call whose response carries no data item
with that key — only such an item can overwrite it. -/
theorem c10_append_only_amended (ops : List EnrichOp) (s : CachePair) :
    (∀ k v, alGet s.mitreC k = some v → alGet (runOps s ops).mitreC k = some v)
  ∧ (∀ k, (alGet s.epssC k).isSome = true →
      (alGet (runOps s ops).epssC k).isSome = true)
  ∧ (∀ k q, alGet s.epssC k = some q → (∀ op ∈ ops, ¬ opTouchesEpss op k) →
      alGet (runOps s ops).epssC k = some q) := by
  induction ops generalizing s with
  | nil => exact ⟨fun k v h => h, fun k h => h, fun k q h _ => h⟩
  | cons op rest ih =>
    refine ⟨fun k v h => ?_, fun k h => ?_, fun k q h hops => ?_⟩
    · apply (ih (stepOp s op)).1 k v
      cases op with
      | mitre ids fetch => exact mitre_step_preserves fetch ids s.mitreC k v h
      | epss ids resp => exact h
    · apply (ih (stepOp s op)).2.1 k
      cases op with
      | mitre ids fetch => exact h
      | epss ids resp => exact epss_scores_cache_isSome _ _ _ _ h
    · apply (ih (stepOp s op)).2.2 k q ?_
        (fun op2 h2 => hops op2 (List.mem_cons_of_mem _ h2))
      cases op with
      | mitre ids fetch => exact h
      | epss ids resp =>
        have hr : ¬ epssRespTouches resp k := hops _ (List.mem_cons_self _ _)
        rw [show (stepOp s (.epss ids resp)).epssC =
          (_fetch_epss_scores (fun _ => resp) s.epssC ids).2.1 from rfl]
        rw [epss_scores_cache_untouched _ _ _ _ (fun _ => hr)]
        exact h

/-- Witness for C10 (amended): CVE-A entries in both caches survive a MITRE
call and an EPSS call that concern only CVE-B. -/
theorem c10_append_only_amended_witness :
    alGet (runOps c10Start c10Ops).mitreC "CVE-A" = some c10Rec
  ∧ (alGet (runOps c10Start c10Ops).epssC (Json.str "CVE-A")).isSome = true
  ∧ alGet (runOps c10Start c10Ops).epssC (Json.str "CVE-A") = some (1/2) := by
  have h := c10_append_only_amended c10Ops c10Start
  refine ⟨h.1 _ c10Rec (by decide), h.2.1 _ (by decide), h.2.2 _ (1/2) (by decide) ?_⟩
  intro op hop
  simp only [c10Ops, List.mem_cons, List.not_mem_nil, or_false] at hop
  rcases hop with rfl | rfl
  · exact not_false
  · exact (by decide :
      ¬ ∃ it ∈ [Json.jobj [("cve", Json.str "CVE-B"), ("epss", Json.str "0.1")]],
        it.get "cve" = some (Json.str "CVE-A"))

/- ===================================================================== -/
/- ===== C1: feed isolation                                        ===== -/
/- ===================================================================== -/

/-- C1: evaluation at the failing input.  In c1Env the avis feed alone
pipelines to exactly one row (the feed is valid and productive) and the
alerte feed's decode raises on its malformed date; the configured two-feed
_fetch_all_data propagates that exception (already from its first,
pre-counting pass over the gathered pipelines) and returns no rows at all,
instead of returning the avis feed's row as the claim states. -/
theorem c1_feed_failure_propagates_eval :
    _fetch_all_data c1Env = .error .valueError
  ∧ _process_data_chunk c1Env "https://www.cert.ssi.gouv.fr/alerte/feed"
      = .error .valueError
  ∧ (_fetch_all_data_feeds c1Env ["https://www.cert.ssi.gouv.fr/avis/feed"]).map
      List.length = .ok 1 :=
  ⟨by decide, by decide, by decide⟩

